import Mathlib

set_option linter.unusedVariables false

/-!
Verification development for the crypto-checkout backend
(Express + TypeScript service: checkout route, webhook route,
transaction service, simulated Coinbase gateway).

The TypeScript source is shallowly embedded:

* opaque string identifiers (UUIDs, provider charge ids, charge codes)
  are modeled as natural numbers; `uuidv4()` and the `Math.random()`
  charge-code generator are modeled as draws from a fresh-value supply
  (`UuidGen`), the standard embedding of randomness;
* timestamps (`Date`, `Date.now()`) are modeled as natural numbers
  (milliseconds since epoch);
* JS `number` amounts are modeled as rationals;
* the SQL tables (`transactions`, `webhook_events` from `schema.sql`)
  are modeled as lists inside a `Store`; an `UPDATE ... WHERE` is a
  `List.map` guarded by the `WHERE` condition, a `SELECT` with
  `ORDER BY created_at DESC LIMIT l OFFSET o` is a sort + `drop`/`take`;
* JS string library functions used by the source
  (`String.prototype.startsWith`, `String.prototype.split`) and the
  Joi validators (`.email()`, `.isoDate()`) are modeled by executable
  functions over `String.toList`.
-/

/-- Transaction status, from the TS union type
`"pending" | "completed" | "failed" | "expired"` (also the CHECK
constraint in schema.sql). -/
inductive Status where
  | pending
  | completed
  | failed
  | expired
deriving DecidableEq, Repr

/-- The VARCHAR value stored for each status in the `status` column. -/
def Status.toStr : Status → String
  | .pending => "pending"
  | .completed => "completed"
  | .failed => "failed"
  | .expired => "expired"

/-- A row of the `transactions` table (the TS `Transaction` type). -/
structure Transaction where
  id : Nat
  checkout_id : Nat
  email : String
  amount : ℚ
  currency : String
  status : Status
  coinbase_charge_id : Nat
  coinbase_charge_code : Nat
  payment_url : String
  expires_at : Nat
  confirmed_at : Option Nat
  created_at : Nat
  updated_at : Nat
deriving DecidableEq, Repr

/-- A row of the `webhook_events` audit table defined in `schema.sql`
("Webhook events table to track all incoming webhooks for
audit/debugging", UNIQUE key on `webhook_id` commented "Prevent
duplicate webhook processing"). No code path in the service or the
routes ever inserts into this table. -/
structure WebhookEventRecord where
  id : Nat
  webhook_id : String
  webhook_type : String
  coinbase_charge_id : Option Nat
  processed_at : Nat
deriving DecidableEq, Repr

/-- The persistent database state: the two tables of `schema.sql`. -/
structure Store where
  transactions : List Transaction
  webhookEvents : List WebhookEventRecord
deriving DecidableEq, Repr

/-- Fresh-value supply modeling `uuidv4()` and the `Math.random()`
charge-code generator: successive draws yield successive naturals. -/
structure UuidGen where
  counter : Nat
deriving DecidableEq, Repr

/-- Draw one fresh identifier from the supply. -/
def freshUuid (g : UuidGen) : Nat × UuidGen :=
  (g.counter, ⟨g.counter + 1⟩)

/-- Identifiers already present in the store are strictly below the
supply counter, so every future draw is fresh. -/
def freshFor (g : UuidGen) (s : Store) : Prop :=
  ∀ t ∈ s.transactions, t.checkout_id < g.counter

/-- Model of JS `String.prototype.startsWith`, computed structurally on
the character lists so it evaluates inside the kernel. -/
def jsStartsWith (s pre : String) : Bool :=
  pre.toList.isPrefixOf s.toList

/-- Model of JS `String.prototype.split(sep)` for a one-character
separator, computed structurally on character lists. -/
def splitOnChar (c : Char) : List Char → List (List Char)
  | [] => [[]]
  | x :: xs =>
    let r := splitOnChar c xs
    if x = c then [] :: r
    else
      match r with
      | [] => [[x]]
      | y :: ys => (x :: y) :: ys

/-- Model of the Joi `.email()` validator: exactly one `@`, a nonempty
local part, and a domain of at least two nonempty dot-separated labels. -/
def isValidEmail (s : String) : Bool :=
  match splitOnChar '@' s.toList with
  | [lp, dom] =>
    !lp.isEmpty &&
      (let parts := splitOnChar '.' dom
       decide (2 ≤ parts.length) && parts.all fun p => !p.isEmpty)
  | _ => false

/-- Model of the Joi `.isoDate()` validator on the timestamp shape the
repository uses throughout (`YYYY-MM-DDTHH:MM:SSZ`, optionally with a
millisecond part `.mmm`). -/
def isIsoDate (s : String) : Bool :=
  match s.toList with
  | [y1, y2, y3, y4, '-', m1, m2, '-', d1, d2, 'T',
     h1, h2, ':', n1, n2, ':', s1, s2, 'Z'] =>
    [y1, y2, y3, y4, m1, m2, d1, d2, h1, h2, n1, n2, s1, s2].all Char.isDigit
  | [y1, y2, y3, y4, '-', m1, m2, '-', d1, d2, 'T',
     h1, h2, ':', n1, n2, ':', s1, s2, '.', f1, f2, f3, 'Z'] =>
    [y1, y2, y3, y4, m1, m2, d1, d2, h1, h2, n1, n2, s1, s2,
     f1, f2, f3].all Char.isDigit
  | _ => false

/-- Model of the Joi `precision(2)` conversion, which rounds the
converted number to two decimal places (`Math.round` semantics). -/
def round2 (a : ℚ) : ℚ :=
  ((Rat.floor (a * 100 + 1 / 2) : ℤ) : ℚ) / 100

/-- Raw body of a `POST /api/checkout` request. `amount = none` covers a
missing field and any value with no numeric interpretation; `email =
none` covers a missing email field. -/
structure RawCheckoutRequest where
  amount : Option ℚ
  email : Option String
deriving DecidableEq, Repr

/-- A checkout request that passed `checkoutSchema` validation (the
`value` returned by Joi). -/
structure ValidCheckout where
  amount : ℚ
  email : String
deriving DecidableEq, Repr

/-- Embedding of `checkoutSchema.validate` from `utils/validation.ts`:
`amount: Joi.number().positive().precision(2).required()`,
`email: Joi.string().email().required()`. Returns the converted value
on success, `none` on any validation error. -/
def checkoutValidate (r : RawCheckoutRequest) : Option ValidCheckout :=
  match r.amount, r.email with
  | some a, some e =>
    if 0 < a then
      if isValidEmail e then some { amount := round2 a, email := e }
      else none
    else none
  | _, _ => none

/-- The `data` object of a webhook body, with `Option` marking fields
the sender may omit. The optional sub-objects of the Joi schema
(`description`, `pricing`, `metadata`, `timeline`) are accepted by Joi
when absent and are not modeled; every payload considered here omits
them. -/
structure WebhookDataRaw where
  id : Option Nat
  code : Option String
  name : Option String
deriving DecidableEq, Repr

/-- Raw body of a `POST /api/webhook` request as far as `webhookSchema`
inspects it. -/
structure WebhookBody where
  id : Option String
  type : Option String
  created_at : Option String
  data : Option WebhookDataRaw
deriving DecidableEq, Repr

/-- A webhook payload that passed `webhookSchema` validation (the TS
`WebhookPayload` type). -/
structure WebhookPayload where
  id : String
  type : String
  created_at : String
  dataId : Nat
  dataCode : String
  dataName : String
deriving DecidableEq, Repr

/-- Embedding of the Joi `.valid("charge:created", "charge:confirmed",
"charge:failed")` restriction on the `type` field of `webhookSchema`. -/
def isValidType (ty : String) : Bool :=
  ty = "charge:created" || ty = "charge:confirmed" || ty = "charge:failed"

/-- Embedding of `webhookSchema.validate` from `utils/validation.ts`:
`id`, `type`, `created_at` and `data` (with `data.id`, `data.code`,
`data.name`) are required; `type` must be one of the three known event
types; `created_at` must be an ISO date. -/
def webhookSchemaValidate (b : WebhookBody) : Option WebhookPayload :=
  match b.id, b.type, b.created_at, b.data with
  | some wid, some ty, some ca, some d =>
    match d.id, d.code, d.name with
    | some cid, some code, some nm =>
      if isValidType ty && isIsoDate ca then
        some { id := wid, type := ty, created_at := ca,
               dataId := cid, dataCode := code, dataName := nm }
      else none
    | _, _, _ => none
  | _, _, _, _ => none

/-- A charge returned by the simulated Coinbase gateway
(`CoinbaseService.createCharge`). -/
structure Charge where
  id : Nat
  code : Nat
  hosted_url : String
  expires_at : Nat
deriving DecidableEq, Repr

/-- The hosted payment URL built by `createCharge`:
`https://superai.coinbase.com/pay/CHG-...` with the charge code
interpolated. -/
def hostedUrlOf (code : Nat) : String :=
  "https://superai.coinbase.com/pay/CHG-" ++ Nat.repr code

/-- Embedding of `CoinbaseService.createCharge`: after a fixed artificial
delay (irrelevant to the state model) it always succeeds, drawing a
fresh charge id (`uuidv4()`) and a fresh charge code (`Math.random()`
token), building the hosted URL from the code, and stamping an expiry
of `Date.now() + 15 * 60 * 1000` milliseconds. The `try/catch` wrapper
in the source has no failing operation in its body, so the embedding is
a total function. -/
def createCharge (g : UuidGen) (now : Nat) : Charge × UuidGen :=
  let (cid, g1) := freshUuid g
  let (ccode, g2) := freshUuid g1
  ({ id := cid, code := ccode, hosted_url := hostedUrlOf ccode,
     expires_at := now + 15 * 60 * 1000 }, g2)

/-- Embedding of `CoinbaseService.validateWebhookSignature`:
`!!(signature && signature.startsWith("sha256="))`. A missing
`X-CC-Webhook-Signature` header is `none`; the empty string is falsy in
JS, hence the explicit emptiness test. The `payload` argument is only
logged and never influences the result. -/
def validateWebhookSignature (payload : String) (signature : Option String) : Bool :=
  match signature with
  | none => false
  | some s => if s = "" then false else jsStartsWith s "sha256="

/-- Embedding of `TransactionService.createTransaction`: builds a new
row with fresh `id` and `checkout_id` (`uuidv4()` each), `pending`
status, `USD` currency, the gateway's charge id/code/URL/expiry, and
`created_at`/`updated_at` stamped with the current time; `confirmed_at`
is not set (NULL). -/
def createTransaction (req : ValidCheckout) (cb : Charge) (g : UuidGen) (now : Nat) :
    Transaction × UuidGen :=
  let (tid, g1) := freshUuid g
  let (ckid, g2) := freshUuid g1
  ({ id := tid, checkout_id := ckid, email := req.email, amount := req.amount,
     currency := "USD", status := .pending,
     coinbase_charge_id := cb.id, coinbase_charge_code := cb.code,
     payment_url := cb.hosted_url, expires_at := cb.expires_at,
     confirmed_at := none, created_at := now, updated_at := now }, g2)

/-- The INSERT issued by `createTransaction`. -/
def insertTransaction (s : Store) (t : Transaction) : Store :=
  { s with transactions := s.transactions ++ [t] }

/-- Embedding of `TransactionService.updateTransactionStatus`: the SQL
statement `UPDATE transactions SET status = ?, confirmed_at = ?,
updated_at = ? WHERE coinbase_charge_id = ?`. Every matching row is
overwritten unconditionally (`confirmed_at` is set to the argument or
to NULL); the affected-row count is never inspected, so an update
matching zero rows completes without any error. -/
def updateTransactionStatus (s : Store) (coinbaseChargeId : Nat) (status : Status)
    (confirmedAt : Option Nat) (now : Nat) : Store :=
  { s with transactions := s.transactions.map fun t =>
      if t.coinbase_charge_id = coinbaseChargeId then
        { t with status := status, confirmed_at := confirmedAt, updated_at := now }
      else t }

inductive StoreError where
  | notFound
deriving DecidableEq, Repr

/-- Refinement comparator for claim C4, following the specification's
words (not the source): `updateStatusByChargeId(chargeId, newStatus,
confirmedAt?)` transitions the matching transaction and raises
`NotFoundError` if no transaction has that charge id. -/
def updateStatusByChargeId_spec (s : Store) (chargeId : Nat) (status : Status)
    (confirmedAt : Option Nat) (now : Nat) : Except StoreError Store :=
  if s.transactions.any fun t => t.coinbase_charge_id = chargeId then
    Except.ok (updateTransactionStatus s chargeId status confirmedAt now)
  else Except.error StoreError.notFound

/-- Embedding of `processWebhook` from `routes/webhook.ts`: dispatch on
the event type. `charge:created` only logs; `charge:confirmed` updates
the transaction to `completed` with `confirmed_at = new Date()` (the
processing time); `charge:failed` updates to `failed` with no
`confirmedAt` (so the SQL writes NULL); the `default` arm logs the
unknown type and changes nothing. -/
def processWebhook (s : Store) (p : WebhookPayload) (now : Nat) : Store :=
  match p.type with
  | "charge:created" => s
  | "charge:confirmed" => updateTransactionStatus s p.dataId .completed (some now) now
  | "charge:failed" => updateTransactionStatus s p.dataId .failed none now
  | _ => s

/-- Outcome of a `POST /api/webhook` request: HTTP status and the
resulting database state. -/
structure WebhookResult where
  status : Nat
  store : Store
deriving DecidableEq, Repr

/-- Embedding of the `POST /api/webhook` handler: verify the signature
header against the stringified body (401 on failure, nothing
persisted), validate the body against `webhookSchema` (400 on failure,
nothing persisted), then run `processWebhook` and answer 200. The
handler never touches the `webhook_events` table. -/
def webhookRoute (s : Store) (sig : Option String) (rawBody : String)
    (b : WebhookBody) (now : Nat) : WebhookResult :=
  if !(validateWebhookSignature rawBody sig) then ⟨401, s⟩
  else
    match webhookSchemaValidate b with
    | none => ⟨400, s⟩
    | some p => ⟨200, processWebhook s p now⟩

/-- Response data of a successful `POST /api/checkout`. -/
structure CheckoutResponseData where
  payment_url : String
  checkout_id : Nat
  expires_at : Nat
deriving DecidableEq, Repr

/-- Outcome of a `POST /api/checkout` request: HTTP status, resulting
database state, resulting uuid supply, the gateway charge created (if
any), and the response body (if any). -/
structure CheckoutResult where
  status : Nat
  store : Store
  gen : UuidGen
  charge : Option Charge
  body : Option CheckoutResponseData
deriving DecidableEq, Repr

/-- Embedding of the `POST /api/checkout` handler: validate against
`checkoutSchema` (400 on failure, before any gateway call or insert),
create the gateway charge, insert the new pending transaction, and
answer 200 with `{payment_url, checkout_id, expires_at}`. -/
def checkoutRoute (s : Store) (g : UuidGen) (req : RawCheckoutRequest) (now : Nat) :
    CheckoutResult :=
  match checkoutValidate req with
  | none => ⟨400, s, g, none, none⟩
  | some v =>
    let (cb, g1) := createCharge g now
    let (txn, g2) := createTransaction v cb g1 now
    ⟨200, insertTransaction s txn, g2, some cb,
      some ⟨cb.hosted_url, txn.checkout_id, cb.expires_at⟩⟩

/-- Model of `parseInt(q) || d`: a missing or non-numeric query
parameter (`parseInt` gives NaN) and the falsy value `0` both fall back
to the default. -/
def parseIntOr (q : Option Int) (d : Int) : Int :=
  match q with
  | none => d
  | some 0 => d
  | some n => n

/-- Filter applied by `getTransactions`/`getTransactionCount`: the SQL
WHERE clauses `status = '...'` and `email = '...'`, each added only when
the query parameter is present and truthy (JS skips the empty string). -/
def matchesFilters (statusQ emailQ : Option String) (t : Transaction) : Bool :=
  (match statusQ with
   | some st => if st = "" then true else t.status.toStr = st
   | none => true) &&
  (match emailQ with
   | some e => if e = "" then true else t.email = e
   | none => true)

/-- Comparison used for `ORDER BY created_at DESC`. -/
def createdDesc (a b : Transaction) : Bool :=
  decide (b.created_at ≤ a.created_at)

/-- Embedding of `TransactionService.getTransactions`: SELECT with the
optional filters, `ORDER BY created_at DESC LIMIT limit OFFSET offset`. -/
def getTransactionsQuery (s : Store) (limit offset : Nat)
    (statusQ emailQ : Option String) : List Transaction :=
  ((((s.transactions.filter (matchesFilters statusQ emailQ)).mergeSort
      createdDesc).drop offset).take limit)

/-- Embedding of `TransactionService.getTransactionCount`: COUNT(*) with
the same optional filters. -/
def getTransactionCount (s : Store) (statusQ emailQ : Option String) : Nat :=
  (s.transactions.filter (matchesFilters statusQ emailQ)).length

/-- Pagination metadata of the `GET /api/transactions` response. -/
structure PageMeta where
  page : Int
  limit : Int
  total : Nat
  totalPages : Nat
  hasNext : Bool
  hasPrev : Bool
deriving DecidableEq, Repr

/-- Outcome of a `GET /api/transactions` request. -/
structure ListResult where
  status : Nat
  transactions : List Transaction
  pagination : Option PageMeta
deriving DecidableEq, Repr

/-- Embedding of the `GET /api/transactions` handler: default page 1 and
limit 10, reject `page < 1 || limit < 1 || limit > 100` with 400,
otherwise fetch the page at `offset = (page - 1) * limit` together with
the total count and build the pagination metadata
(`totalPages = Math.ceil(total / limit)`, `hasNext = page < totalPages`,
`hasPrev = page > 1`). -/
def transactionsRoute (s : Store) (pageQ limitQ : Option Int)
    (statusQ emailQ : Option String) : ListResult :=
  let page := parseIntOr pageQ 1
  let limit := parseIntOr limitQ 10
  if page < 1 ∨ limit < 1 ∨ limit > 100 then ⟨400, [], none⟩
  else
    let offset := ((page - 1) * limit).toNat
    let txns := getTransactionsQuery s limit.toNat offset statusQ emailQ
    let total := getTransactionCount s statusQ emailQ
    let totalPages := (total + limit.toNat - 1) / limit.toNat
    ⟨200, txns,
      some ⟨page, limit, total, totalPages,
        decide (page < (totalPages : Int)), decide (page > 1)⟩⟩

/-- Big-endian decimal digit characters of a natural number; reference
function used to prove that `Nat.repr` is injective (which makes the
hosted payment URLs injective in the charge code). -/
def decDigits (n : Nat) : List Char :=
  if h : n < 10 then [Nat.digitChar n]
  else decDigits (n / 10) ++ [Nat.digitChar (n % 10)]
decreasing_by exact Nat.div_lt_self (by omega) (by omega)

/-- The empty database. -/
def emptyStore : Store := ⟨[], []⟩

/-- A transaction already confirmed: charge 7, `completed`,
`confirmed_at` set. -/
def txCompleted : Transaction :=
  { id := 100, checkout_id := 101, email := "buyer@example.com", amount := 50,
    currency := "USD", status := .completed, coinbase_charge_id := 7,
    coinbase_charge_code := 8, payment_url := hostedUrlOf 8,
    expires_at := 900000, confirmed_at := some 100, created_at := 0,
    updated_at := 100 }

/-- A store holding only the completed transaction for charge 7. -/
def storeCompleted : Store := ⟨[txCompleted], []⟩

/-- A `charge:failed` payload for charge 7 (as produced by
`webhookSchema` validation). -/
def failedPayload7 : WebhookPayload :=
  { id := "wh-2", type := "charge:failed", created_at := "2024-01-01T12:00:00Z",
    dataId := 7, dataCode := "CHG-8", dataName := "Event Ticket" }

/-- A pending transaction for charge 7. -/
def txPending : Transaction :=
  { id := 100, checkout_id := 101, email := "buyer@example.com", amount := 50,
    currency := "USD", status := .pending, coinbase_charge_id := 7,
    coinbase_charge_code := 8, payment_url := hostedUrlOf 8,
    expires_at := 900000, confirmed_at := none, created_at := 0,
    updated_at := 0 }

/-- A store holding only the pending transaction for charge 7. -/
def storePending : Store := ⟨[txPending], []⟩

/-- A schema-valid `charge:confirmed` webhook body for charge 7. -/
def confirmedBody7 : WebhookBody :=
  { id := some "wh-1", type := some "charge:confirmed",
    created_at := some "2024-01-01T12:00:00Z",
    data := some { id := some 7, code := some "CHG-8", name := some "Event Ticket" } }

/-- The same body with an event type outside the schema's `valid` list. -/
def unknownTypeBody : WebhookBody :=
  { id := some "wh-9", type := some "charge:delayed",
    created_at := some "2024-01-01T12:00:00Z",
    data := some { id := some 7, code := some "CHG-8", name := some "Event Ticket" } }

/-- A valid checkout request body. -/
def reqValid : RawCheckoutRequest := ⟨some 50, some "a@b.co"⟩

/-- The validated value Joi returns for `reqValid`. -/
def vValid : ValidCheckout := ⟨round2 50, "a@b.co"⟩

/-- A checkout request with a non-positive amount. -/
def reqNegAmount : RawCheckoutRequest := ⟨some (-5), some "a@b.co"⟩

/-- A fresh uuid supply. -/
def genZero : UuidGen := ⟨0⟩

/-- The i-th seeded transaction for the pagination scenario. -/
def seedTxn (i : Nat) : Transaction :=
  { id := i, checkout_id := 1000 + i, email := "seed@example.com", amount := 10,
    currency := "USD", status := .pending, coinbase_charge_id := 2000 + i,
    coinbase_charge_code := 3000 + i, payment_url := hostedUrlOf (3000 + i),
    expires_at := 900000, confirmed_at := none, created_at := i, updated_at := i }

/-- A store seeded with 25 transactions. -/
def seedStore : Store := ⟨(List.range 25).map seedTxn, []⟩

theorem digitChar_inj : ∀ a, a < 10 → ∀ b, b < 10 →
    Nat.digitChar a = Nat.digitChar b → a = b := by decide

theorem decDigits_unfold (n : Nat) :
    decDigits n = if n < 10 then [Nat.digitChar n]
      else decDigits (n / 10) ++ [Nat.digitChar (n % 10)] := by
  rw [decDigits]
  by_cases h : n < 10
  · rw [dif_pos h, if_pos h]
  · rw [dif_neg h, if_neg h]

theorem decDigits_ne_nil (n : Nat) : decDigits n ≠ [] := by
  rw [decDigits_unfold n]
  by_cases h : n < 10
  · rw [if_pos h]; simp
  · rw [if_neg h]; simp

theorem append_singleton_inj {l₁ l₂ : List Char} {a b : Char}
    (h : l₁ ++ [a] = l₂ ++ [b]) : l₁ = l₂ ∧ a = b := by
  have h' := congrArg List.reverse h
  simp only [List.reverse_append, List.reverse_cons, List.reverse_nil,
    List.nil_append, List.singleton_append] at h'
  obtain ⟨h1, h2⟩ := List.cons.inj h'
  exact ⟨by simpa using congrArg List.reverse h2, h1⟩

theorem decDigits_inj : ∀ m n : Nat, decDigits m = decDigits n → m = n := by
  intro m
  induction m using Nat.strong_induction_on with
  | _ m ih =>
    intro n h
    by_cases hm : m < 10 <;> by_cases hn : n < 10
    · rw [decDigits_unfold m, if_pos hm, decDigits_unfold n, if_pos hn] at h
      exact digitChar_inj m hm n hn (by simpa using h)
    · rw [decDigits_unfold m, if_pos hm, decDigits_unfold n, if_neg hn] at h
      have hlen := congrArg List.length h
      simp [List.length_eq_zero] at hlen
      exact absurd hlen (decDigits_ne_nil (n / 10))
    · rw [decDigits_unfold m, if_neg hm, decDigits_unfold n, if_pos hn] at h
      have hlen := congrArg List.length h
      simp [List.length_eq_zero] at hlen
      exact absurd hlen (decDigits_ne_nil (m / 10))
    · rw [decDigits_unfold m, if_neg hm, decDigits_unfold n, if_neg hn] at h
      obtain ⟨h1, h2⟩ := append_singleton_inj h
      have hd := digitChar_inj (m % 10) (Nat.mod_lt _ (by omega))
        (n % 10) (Nat.mod_lt _ (by omega)) h2
      have hq := ih (m / 10) (Nat.div_lt_self (by omega) (by omega)) (n / 10) h1
      omega

theorem toDigitsCore_eq_decDigits (fuel : Nat) : ∀ (n : Nat) (acc : List Char),
    n < fuel → Nat.toDigitsCore 10 fuel n acc = decDigits n ++ acc := by
  induction fuel with
  | zero => intro n acc h; omega
  | succ f ih =>
    intro n acc h
    simp only [Nat.toDigitsCore]
    by_cases h10 : n / 10 = 0
    · have hn : n < 10 := (Nat.div_eq_zero_iff (by omega)).mp h10
      rw [if_pos h10, decDigits_unfold n, if_pos hn, Nat.mod_eq_of_lt hn]
      rfl
    · have hge : ¬ n < 10 := by
        intro hlt
        exact h10 (Nat.div_eq_of_lt hlt)
      have hpos : 0 < n := by omega
      have hlt : n / 10 < f :=
        lt_of_lt_of_le (Nat.div_lt_self hpos (by omega)) (by omega)
      rw [if_neg h10, ih (n / 10) _ hlt, decDigits_unfold n, if_neg hge,
        List.append_assoc]
      rfl

theorem natRepr_eq (n : Nat) : Nat.repr n = (decDigits n).asString := by
  unfold Nat.repr Nat.toDigits
  rw [toDigitsCore_eq_decDigits (n + 1) n [] (Nat.lt_succ_self n),
    List.append_nil]

theorem natRepr_inj {m n : Nat} (h : Nat.repr m = Nat.repr n) : m = n := by
  rw [natRepr_eq, natRepr_eq] at h
  exact decDigits_inj m n (String.ext_iff.mp h)

theorem hostedUrlOf_inj {a b : Nat} (h : hostedUrlOf a = hostedUrlOf b) :
    a = b := by
  unfold hostedUrlOf at h
  have h2 := congrArg String.data h
  rw [String.data_append, String.data_append] at h2
  exact natRepr_inj (String.ext (List.append_cancel_left h2))

/-- C1 counterexample: the store holds a transaction for charge 7 that is
already `completed`, yet processing a subsequent `charge:failed` webhook
for charge 7 flips its status to `failed`. -/
theorem c1_cex :
    txCompleted.status = Status.completed ∧
    (processWebhook storeCompleted failedPayload7 200).transactions.map
      Transaction.status = [Status.failed] :=
  ⟨rfl, rfl⟩

/-- C1 (amended): terminal states are not sticky. Processing a
`charge:failed` event unconditionally overwrites every transaction
matching the charge id with status `failed` (clearing `confirmed_at`),
regardless of its current status — the UPDATE has no guard on the
current status, so the last delivered event wins. -/
theorem c1_charge_failed_overwrites (s : Store) (cid : Nat) (now : Nat)
    (wid ca code nm : String) :
    (processWebhook s ⟨wid, "charge:failed", ca, cid, code, nm⟩ now).transactions =
      s.transactions.map fun t =>
        if t.coinbase_charge_id = cid then
          { t with status := Status.failed, confirmed_at := none, updated_at := now }
        else t :=
  rfl

/-- C2: delivering the identical `charge:confirmed` webhook (same webhook
id `wh-1`, charge 7) twice returns success both times, but the status
transition is applied on both deliveries (`confirmed_at` is overwritten
from 1000 to the second processing time 2000) and no audit row is ever
written to the webhook-event ledger. -/
theorem c2_duplicate_delivery_reapplied :
    (webhookRoute storePending (some "sha256=abc") "raw" confirmedBody7 1000).status
      = 200 ∧
    (webhookRoute (webhookRoute storePending (some "sha256=abc") "raw"
        confirmedBody7 1000).store (some "sha256=abc") "raw" confirmedBody7 2000).status
      = 200 ∧
    (webhookRoute storePending (some "sha256=abc") "raw"
        confirmedBody7 1000).store.transactions.map Transaction.confirmed_at
      = [some 1000] ∧
    (webhookRoute (webhookRoute storePending (some "sha256=abc") "raw"
        confirmedBody7 1000).store (some "sha256=abc") "raw"
        confirmedBody7 2000).store.transactions.map Transaction.confirmed_at
      = [some 2000] ∧
    (webhookRoute (webhookRoute storePending (some "sha256=abc") "raw"
        confirmedBody7 1000).store (some "sha256=abc") "raw"
        confirmedBody7 2000).store.webhookEvents = [] :=
  ⟨rfl, rfl, rfl, rfl, rfl⟩

/-- C3 counterexample: an authenticated delivery (valid signature) whose
event type `charge:delayed` is outside the schema's `valid` list is
rejected with 400, not accepted with 200 — while the same body with a
known type is accepted. -/
theorem c3_cex :
    validateWebhookSignature "raw" (some "sha256=abc") = true ∧
    (webhookRoute emptyStore (some "sha256=abc") "raw" unknownTypeBody 50).status
      = 400 ∧
    ¬ (webhookRoute emptyStore (some "sha256=abc") "raw" unknownTypeBody 50).status
      = 200 ∧
    (webhookRoute emptyStore (some "sha256=abc") "raw"
      { unknownTypeBody with type := some "charge:created" } 50).status = 200 :=
  ⟨rfl, rfl, by decide, rfl⟩

/-- C3 (amended): every authenticated webhook delivery whose event type
is not one of `charge:created`, `charge:confirmed`, `charge:failed` is
rejected with HTTP 400 by `webhookSchema` validation (so it does fail
the delivery), and no transaction is mutated; the handler's
unknown-type branch is unreachable. -/
theorem c3_unknown_type_rejected (s : Store) (sig : Option String) (raw : String)
    (b : WebhookBody) (now : Nat) (ty : String)
    (hsig : validateWebhookSignature raw sig = true)
    (hty : b.type = some ty) (hunknown : isValidType ty = false) :
    webhookRoute s sig raw b now = ⟨400, s⟩ := by
  have hschema : webhookSchemaValidate b = none := by
    obtain ⟨bid, bty, bca, bdata⟩ := b
    cases hty
    unfold webhookSchemaValidate
    cases bid <;> cases bca <;> cases bdata <;> try rfl
    rename_i d
    obtain ⟨di, dc, dn⟩ := d
    cases di <;> cases dc <;> cases dn <;> try rfl
    simp [hunknown]
  unfold webhookRoute
  rw [hsig, hschema]
  rfl

/-- C3 witness: the amended statement at the concrete counterexample
input. -/
theorem c3_witness :
    validateWebhookSignature "raw" (some "sha256=abc") = true ∧
    unknownTypeBody.type = some "charge:delayed" ∧
    isValidType "charge:delayed" = false ∧
    webhookRoute emptyStore (some "sha256=abc") "raw" unknownTypeBody 50
      = ⟨400, emptyStore⟩ :=
  ⟨rfl, rfl, rfl,
    c3_unknown_type_rejected emptyStore (some "sha256=abc") "raw" unknownTypeBody
      50 "charge:delayed" rfl rfl rfl⟩

/-- C4 counterexample: on the empty store the status update for charge 7
completes without any error and leaves the store unchanged (a zero-row
UPDATE), whereas the specification's `updateStatusByChargeId` raises
`NotFoundError`. -/
theorem c4_cex :
    updateTransactionStatus emptyStore 7 Status.failed none 5 = emptyStore ∧
    updateStatusByChargeId_spec emptyStore 7 Status.failed none 5
      = Except.error StoreError.notFound :=
  ⟨rfl, rfl⟩

/-- C4 (amended): when no transaction matches the charge id, the status
update silently succeeds — the unconditional UPDATE matches zero rows,
no `NotFoundError` (or any error) is raised, and the store is returned
unchanged. -/
theorem c4_missing_charge_silent (s : Store) (cid : Nat) (st : Status)
    (c : Option Nat) (now : Nat)
    (h : ∀ t ∈ s.transactions, t.coinbase_charge_id ≠ cid) :
    updateTransactionStatus s cid st c now = s := by
  obtain ⟨tx, ev⟩ := s
  simp only [updateTransactionStatus]
  congr 1
  have : ∀ t ∈ tx, (if t.coinbase_charge_id = cid then
      { t with status := st, confirmed_at := c, updated_at := now } else t) = id t := by
    intro t ht
    rw [if_neg (h t ht)]
    rfl
  rw [List.map_congr_left this, List.map_id]

/-- C4 witness: the amended statement on the empty store. -/
theorem c4_witness :
    (∀ t ∈ emptyStore.transactions, t.coinbase_charge_id ≠ 7) ∧
    updateTransactionStatus emptyStore 7 Status.failed none 5 = emptyStore :=
  ⟨by simp [emptyStore], c4_missing_charge_silent emptyStore 7 Status.failed none 5
    (by simp [emptyStore])⟩

/-- C5: for every checkout request accepted by `checkoutSchema`
(positive amount, valid email), the handler answers 200, the gateway
charge is created, a transaction is appended in `pending` status with
`coinbase_charge_id` taken from the gateway response and a `checkout_id`
distinct from every existing one (given a fresh uuid supply), and the
response body carries the charge's `payment_url`, the transaction's
`checkout_id` and the charge's `expires_at`; freshness of the supply is
preserved. -/
theorem c5_checkout_creates_pending (s : Store) (g : UuidGen)
    (req : RawCheckoutRequest) (v : ValidCheckout) (now : Nat)
    (hv : checkoutValidate req = some v) (hf : freshFor g s) :
    ∃ cb t,
      (checkoutRoute s g req now).status = 200 ∧
      (checkoutRoute s g req now).charge = some cb ∧
      (checkoutRoute s g req now).store.transactions = s.transactions ++ [t] ∧
      t.status = Status.pending ∧
      t.coinbase_charge_id = cb.id ∧
      (∀ t' ∈ s.transactions, t'.checkout_id ≠ t.checkout_id) ∧
      (checkoutRoute s g req now).body =
        some ⟨cb.hosted_url, t.checkout_id, cb.expires_at⟩ ∧
      freshFor (checkoutRoute s g req now).gen (checkoutRoute s g req now).store := by
  have hroute : checkoutRoute s g req now =
      ⟨200,
        insertTransaction s
          ⟨g.counter + 2, g.counter + 3, v.email, v.amount, "USD", .pending,
           g.counter, g.counter + 1, hostedUrlOf (g.counter + 1),
           now + 15 * 60 * 1000, none, now, now⟩,
        ⟨g.counter + 4⟩,
        some ⟨g.counter, g.counter + 1, hostedUrlOf (g.counter + 1),
          now + 15 * 60 * 1000⟩,
        some ⟨hostedUrlOf (g.counter + 1), g.counter + 3,
          now + 15 * 60 * 1000⟩⟩ := by
    unfold checkoutRoute
    rw [hv]
    rfl
  refine ⟨⟨g.counter, g.counter + 1, hostedUrlOf (g.counter + 1),
      now + 15 * 60 * 1000⟩,
    ⟨g.counter + 2, g.counter + 3, v.email, v.amount, "USD", .pending,
      g.counter, g.counter + 1, hostedUrlOf (g.counter + 1),
      now + 15 * 60 * 1000, none, now, now⟩,
    ?_, ?_, ?_, rfl, rfl, ?_, ?_, ?_⟩
  · rw [hroute]
  · rw [hroute]
  · rw [hroute]; rfl
  · intro t' ht'
    have hlt := hf t' ht'
    show t'.checkout_id ≠ g.counter + 3
    omega
  · rw [hroute]
  · rw [hroute]
    intro t' ht'
    simp only [insertTransaction, List.mem_append, List.mem_singleton] at ht'
    show t'.checkout_id < g.counter + 4
    rcases ht' with h1 | h1
    · have hlt := hf t' h1
      omega
    · subst h1
      show g.counter + 3 < g.counter + 4
      omega

/-- C5 witness: the theorem at the empty store, a fresh supply and the
concrete valid request. -/
theorem c5_witness :
    checkoutValidate reqValid = some vValid ∧ freshFor genZero emptyStore ∧
    (∃ cb t,
      (checkoutRoute emptyStore genZero reqValid 777).status = 200 ∧
      (checkoutRoute emptyStore genZero reqValid 777).charge = some cb ∧
      (checkoutRoute emptyStore genZero reqValid 777).store.transactions =
        emptyStore.transactions ++ [t] ∧
      t.status = Status.pending ∧
      t.coinbase_charge_id = cb.id ∧
      (∀ t' ∈ emptyStore.transactions, t'.checkout_id ≠ t.checkout_id) ∧
      (checkoutRoute emptyStore genZero reqValid 777).body =
        some ⟨cb.hosted_url, t.checkout_id, cb.expires_at⟩ ∧
      freshFor (checkoutRoute emptyStore genZero reqValid 777).gen
        (checkoutRoute emptyStore genZero reqValid 777).store) :=
  ⟨rfl, by simp [freshFor, emptyStore],
    c5_checkout_creates_pending emptyStore genZero reqValid vValid 777 rfl
      (by simp [freshFor, emptyStore])⟩

/-- C6: every checkout request rejected by `checkoutSchema` (missing or
non-numeric amount, amount not positive, or malformed email) yields 400
with nothing persisted: the store, the uuid supply, and the absence of
any gateway charge are all returned exactly as before. -/
theorem c6_invalid_checkout_persists_nothing (s : Store) (g : UuidGen)
    (req : RawCheckoutRequest) (now : Nat)
    (h : checkoutValidate req = none) :
    checkoutRoute s g req now = ⟨400, s, g, none, none⟩ := by
  unfold checkoutRoute
  rw [h]

/-- C6 witness: the theorem at a request with a negative amount. -/
theorem c6_witness :
    checkoutValidate reqNegAmount = none ∧
    checkoutRoute emptyStore genZero reqNegAmount 9 =
      ⟨400, emptyStore, genZero, none, none⟩ :=
  ⟨rfl, c6_invalid_checkout_persists_nothing emptyStore genZero reqNegAmount 9 rfl⟩

/-- C7: `limit=101` is rejected with 400 whatever the page parameter is,
and over a store of 25 transactions, page 2 with `limit=10` answers 200
with exactly 10 items and pagination metadata
`{page 2, limit 10, total 25, totalPages 3, hasNext true, hasPrev true}`. -/
theorem c7_pagination (s : Store) (pageQ : Option Int)
    (h : s.transactions.length = 25) :
    transactionsRoute s pageQ (some 101) none none = ⟨400, [], none⟩ ∧
    (transactionsRoute s (some 2) (some 10) none none).status = 200 ∧
    (transactionsRoute s (some 2) (some 10) none none).transactions.length = 10 ∧
    (transactionsRoute s (some 2) (some 10) none none).pagination =
      some ⟨2, 10, 25, 3, true, true⟩ := by
  have hfilter : s.transactions.filter (matchesFilters none none) = s.transactions :=
    List.filter_eq_self.mpr fun a _ => rfl
  have h101 : parseIntOr (some 101) 10 = 101 := rfl
  have hcount : getTransactionCount s none none = 25 := by
    rw [getTransactionCount, hfilter, h]
  refine ⟨?_, ?_, ?_, ?_⟩
  · simp only [transactionsRoute, h101]
    rw [if_pos]
    right; right; norm_num
  · simp only [transactionsRoute, parseIntOr]
    rw [if_neg (by norm_num)]
  · simp only [transactionsRoute, parseIntOr]
    rw [if_neg (by norm_num)]
    simp only [getTransactionsQuery, List.length_take, List.length_drop,
      List.length_mergeSort, hfilter, h]
    rfl
  · simp only [transactionsRoute, parseIntOr]
    rw [if_neg (by norm_num)]
    simp only [hcount]
    rfl

/-- C7 witness: the theorem over the seeded 25-transaction store. -/
theorem c7_witness :
    seedStore.transactions.length = 25 ∧
    (transactionsRoute seedStore (some 5) (some 101) none none = ⟨400, [], none⟩ ∧
     (transactionsRoute seedStore (some 2) (some 10) none none).status = 200 ∧
     (transactionsRoute seedStore (some 2) (some 10) none none).transactions.length
       = 10 ∧
     (transactionsRoute seedStore (some 2) (some 10) none none).pagination =
       some ⟨2, 10, 25, 3, true, true⟩) :=
  ⟨rfl, c7_pagination seedStore (some 5) rfl⟩

/-- C8: every webhook delivery whose signature header is missing, empty,
or does not start with `sha256=` is answered with 401 and the store is
returned untouched — no audit row is written and no transaction is
mutated. -/
theorem c8_bad_signature_rejected (s : Store) (sig : Option String) (raw : String)
    (b : WebhookBody) (now : Nat)
    (h : sig = none ∨ ∃ str, sig = some str ∧
      (str = "" ∨ jsStartsWith str "sha256=" = false)) :
    webhookRoute s sig raw b now = ⟨401, s⟩ := by
  have hv : validateWebhookSignature raw sig = false := by
    rcases h with rfl | ⟨str, rfl, h2 | h2⟩
    · rfl
    · simp [validateWebhookSignature, h2]
    · by_cases he : str = ""
      · simp [validateWebhookSignature, he]
      · simp [validateWebhookSignature, he, h2]
  unfold webhookRoute
  rw [hv]
  rfl

/-- C8 witness: a delivery with no signature header at all. -/
theorem c8_witness :
    ((none : Option String) = none ∨ ∃ str, (none : Option String) = some str ∧
      (str = "" ∨ jsStartsWith str "sha256=" = false)) ∧
    webhookRoute storePending none "raw" confirmedBody7 5 = ⟨401, storePending⟩ :=
  ⟨Or.inl rfl,
    c8_bad_signature_rejected storePending none "raw" confirmedBody7 5 (Or.inl rfl)⟩

/-- C9: the simulated gateway call is a total function (it never fails):
for every supply state and call times, the charge carries an expiry
exactly `15 * 60 * 1000` milliseconds after the time of the call, and
two successive calls yield pairwise distinct charge ids, charge codes,
and hosted URLs (the id and code of a single call are distinct too). -/
theorem c9_create_charge_fresh (g : UuidGen) (now1 now2 : Nat) :
    (createCharge g now1).1.expires_at = now1 + 15 * 60 * 1000 ∧
    (createCharge g now1).1.id ≠ (createCharge (createCharge g now1).2 now2).1.id ∧
    (createCharge g now1).1.code ≠ (createCharge (createCharge g now1).2 now2).1.code ∧
    (createCharge g now1).1.hosted_url ≠
      (createCharge (createCharge g now1).2 now2).1.hosted_url ∧
    (createCharge g now1).1.id ≠ (createCharge g now1).1.code := by
  refine ⟨rfl, ?_, ?_, ?_, ?_⟩
  · show g.counter ≠ g.counter + 1 + 1
    omega
  · show g.counter + 1 ≠ g.counter + 1 + 1 + 1
    omega
  · intro h
    have h' : hostedUrlOf (g.counter + 1) = hostedUrlOf (g.counter + 1 + 1 + 1) := h
    have := hostedUrlOf_inj h'
    omega
  · show g.counter ≠ g.counter + 1
    omega

/-- C10: webhook signature verification ignores the payload entirely —
the result is the same for any two payloads — and it returns true
exactly when a signature header is present, non-empty, and starts with
the prefix `sha256=`; so any request body whatsoever passes
authentication given such a header. -/
theorem c10_signature_ignores_payload (p₁ p₂ p : String) (sig : Option String) :
    validateWebhookSignature p₁ sig = validateWebhookSignature p₂ sig ∧
    (validateWebhookSignature p sig = true ↔
      ∃ str, sig = some str ∧ str ≠ "" ∧ jsStartsWith str "sha256=" = true) := by
  cases sig with
  | none => exact ⟨rfl, by simp [validateWebhookSignature]⟩
  | some str =>
    refine ⟨rfl, ?_⟩
    by_cases h : str = ""
    · subst h
      simp [validateWebhookSignature]
    · simp [validateWebhookSignature, h]
